import Mathlib

/-!
Verification of `windows_unit_tests_plugin.cpp` (namespace `windows_unit_tests`),
a minimal Flutter Windows platform-channel plugin.  The plugin registers a
method channel named "windows_unit_tests" and dispatches incoming method calls:
a call named "placeholder" is answered with `Success(EncodableValue(true))`,
any other name with `NotImplemented()`.

The embedding is shallow: `HandleMethodCall` is modelled as a pure function
from the plugin instance and the incoming method call to the list of terminal
calls made on the result sink, and `RegisterWithRegistrar` as a pure update of
an explicit registrar state.
-/

namespace WindowsUnitTests

/-- The host framework's standard-codec variant value
(`flutter::EncodableValue`): a tagged union of encodable kinds.  The plugin
never inspects argument values, so a representative set of constructors
suffices. -/
inductive EncodableValue where
  | null : EncodableValue
  | bool (b : Bool) : EncodableValue
  | int (i : Int) : EncodableValue
  | string (s : String) : EncodableValue
deriving DecidableEq, Repr

/-- A method call (`flutter::MethodCall<flutter::EncodableValue>`): a method
name together with an argument value (`EncodableValue.null` when no arguments
are supplied). -/
structure MethodCall where
  method_name : String
  arguments : EncodableValue
deriving DecidableEq, Repr

/-- One terminal call on the result sink
(`flutter::MethodResult<flutter::EncodableValue>`): `Success(value)`,
`Error(code, message, details)`, or `NotImplemented()`. -/
inductive ResultCall where
  | success (v : EncodableValue) : ResultCall
  | error (code msg : String) (details : EncodableValue) : ResultCall
  | notImplemented : ResultCall
deriving DecidableEq, Repr

/-- Whether a terminal call on the result sink is the `Error` terminal. -/
def ResultCall.isError : ResultCall → Bool
  | .error _ _ _ => true
  | _ => false

/-- The plugin instance (`WindowsUnitTestsPlugin`).  The C++ class declares no
data members, so the Lean structure has no fields. -/
structure WindowsUnitTestsPlugin where
deriving DecidableEq, Repr

/-- `WindowsUnitTestsPlugin::HandleMethodCall`.  The body is a single
two-way branch: `method_call.method_name().compare("placeholder") == 0`
(i.e. string equality with "placeholder") selects
`result->Success(flutter::EncodableValue(true))`, otherwise
`result->NotImplemented()` runs.  The returned list records, in order, the
terminal calls made on the result sink during the invocation. -/
def HandleMethodCall (plugin : WindowsUnitTestsPlugin) (method_call : MethodCall) :
    List ResultCall :=
  if method_call.method_name = "placeholder" then
    [ResultCall.success (EncodableValue.bool true)]
  else
    [ResultCall.notImplemented]

/-- Processing of a sequence of method calls delivered to one plugin
instance, in order; each invocation sees the same instance (the C++ handler
captures a raw pointer to the single registered plugin object, which has no
mutable state). -/
def runPlugin (plugin : WindowsUnitTestsPlugin) :
    List MethodCall → List (List ResultCall)
  | [] => []
  | c :: cs => HandleMethodCall plugin c :: runPlugin plugin cs

/-- Observable registrar state
(`flutter::PluginRegistrarWindows`): the method channels created on its
messenger, each with its installed method-call handler, and the plugins added
to the registrar's registry. -/
structure RegistrarState where
  channels : List (String × (MethodCall → List ResultCall))
  plugins : List WindowsUnitTestsPlugin

/-- `WindowsUnitTestsPlugin::RegisterWithRegistrar`: creates one method
channel named "windows_unit_tests" on the registrar's messenger (with the
standard method codec), constructs one plugin instance, installs a single
method-call handler that forwards every call to the instance's
`HandleMethodCall`, and adds the plugin to the registrar. -/
def RegisterWithRegistrar (registrar : RegistrarState) : RegistrarState :=
  let plugin : WindowsUnitTestsPlugin := WindowsUnitTestsPlugin.mk
  { channels := registrar.channels ++
      [("windows_unit_tests", fun call => HandleMethodCall plugin call)],
    plugins := registrar.plugins ++ [plugin] }

/-- C1: a method call named exactly "placeholder" is answered with a single
success result carrying the boolean value `true`, regardless of the
arguments supplied. -/
theorem placeholder_yields_success_true (plugin : WindowsUnitTestsPlugin)
    (args : EncodableValue) :
    HandleMethodCall plugin { method_name := "placeholder", arguments := args } =
      [ResultCall.success (EncodableValue.bool true)] := by
  simp [HandleMethodCall]

/-- C2: the response is the not-implemented result exactly for the calls
whose method name differs from "placeholder". -/
theorem notImplemented_iff_name_ne_placeholder (plugin : WindowsUnitTestsPlugin)
    (call : MethodCall) :
    HandleMethodCall plugin call = [ResultCall.notImplemented] ↔
      call.method_name ≠ "placeholder" := by
  unfold HandleMethodCall
  split <;> simp_all

/-- C2 witness: the iff instantiated at the concrete call named "foo". -/
theorem notImplemented_iff_witness :
    HandleMethodCall WindowsUnitTestsPlugin.mk { method_name := "foo", arguments := EncodableValue.null } =
      [ResultCall.notImplemented] :=
  (notImplemented_iff_name_ne_placeholder WindowsUnitTestsPlugin.mk
    { method_name := "foo", arguments := EncodableValue.null }).mpr (by decide)

/-- C3: the name comparison is case-sensitive: "PLACEHOLDER", "Placeholder"
and the empty name all yield not-implemented. -/
theorem name_comparison_case_sensitive :
    HandleMethodCall WindowsUnitTestsPlugin.mk { method_name := "PLACEHOLDER", arguments := EncodableValue.null } =
        [ResultCall.notImplemented] ∧
    HandleMethodCall WindowsUnitTestsPlugin.mk { method_name := "Placeholder", arguments := EncodableValue.null } =
        [ResultCall.notImplemented] ∧
    HandleMethodCall WindowsUnitTestsPlugin.mk { method_name := "", arguments := EncodableValue.null } =
        [ResultCall.notImplemented] := by
  refine ⟨?_, ?_, ?_⟩ <;> decide

/-- C4: every invocation makes exactly one terminal call on the result
sink. -/
theorem exactly_one_response (plugin : WindowsUnitTestsPlugin) (call : MethodCall) :
    (HandleMethodCall plugin call).length = 1 := by
  unfold HandleMethodCall
  split <;> rfl

/-- C5: dispatch is total and the only outcomes are success-with-true or
not-implemented; an unrecognized name never causes a fault. -/
theorem dispatch_total_no_fault (plugin : WindowsUnitTestsPlugin) (call : MethodCall) :
    HandleMethodCall plugin call = [ResultCall.success (EncodableValue.bool true)] ∨
      HandleMethodCall plugin call = [ResultCall.notImplemented] := by
  unfold HandleMethodCall
  split
  · exact Or.inl rfl
  · exact Or.inr rfl

/-- C6: dispatch retains no state between calls: processing any sequence of
calls answers each call independently of the history, and two invocations
with equal method names (on any instances) get identical responses. -/
theorem dispatch_stateless :
    (∀ (plugin : WindowsUnitTestsPlugin) (cs : List MethodCall),
        runPlugin plugin cs = cs.map (HandleMethodCall plugin)) ∧
    (∀ (p p' : WindowsUnitTestsPlugin) (c c' : MethodCall),
        c.method_name = c'.method_name →
          HandleMethodCall p c = HandleMethodCall p' c') := by
  constructor
  · intro plugin cs
    induction cs with
    | nil => rfl
    | cons c cs ih => simp [runPlugin, ih]
  · intro p p' c c' h
    unfold HandleMethodCall
    rw [h]

/-- C6 witness: two calls sharing the name "m" but differing in arguments
receive identical responses. -/
theorem dispatch_stateless_witness :
    HandleMethodCall WindowsUnitTestsPlugin.mk { method_name := "m", arguments := EncodableValue.null } =
      HandleMethodCall WindowsUnitTestsPlugin.mk { method_name := "m", arguments := EncodableValue.bool false } :=
  dispatch_stateless.2 WindowsUnitTestsPlugin.mk WindowsUnitTestsPlugin.mk
    { method_name := "m", arguments := EncodableValue.null }
    { method_name := "m", arguments := EncodableValue.bool false } rfl

/-- C7: registration appends exactly one channel, named exactly
"windows_unit_tests", whose installed handler forwards every call to
`HandleMethodCall` on the one constructed plugin instance, appends exactly
that one plugin instance to the registry, and changes nothing else in the
registrar state. -/
theorem register_effects (registrar : RegistrarState) :
    (RegisterWithRegistrar registrar).channels =
        registrar.channels ++
          [("windows_unit_tests", fun call => HandleMethodCall WindowsUnitTestsPlugin.mk call)] ∧
    (RegisterWithRegistrar registrar).channels.length =
        registrar.channels.length + 1 ∧
    (RegisterWithRegistrar registrar).plugins = registrar.plugins ++ [WindowsUnitTestsPlugin.mk] := by
  refine ⟨rfl, ?_, rfl⟩
  simp [RegisterWithRegistrar]

/-- C8: the response depends only on the method name: for any fixed name,
arbitrary argument values produce identical responses. -/
theorem response_ignores_arguments (plugin : WindowsUnitTestsPlugin)
    (name : String) (a a' : EncodableValue) :
    HandleMethodCall plugin { method_name := name, arguments := a } =
      HandleMethodCall plugin { method_name := name, arguments := a' } := by
  unfold HandleMethodCall
  rfl

/-- C9: the error terminal of the result sink is never invoked: the trace of
sink calls contains no `Error` call for any input. -/
theorem error_terminal_unreachable (plugin : WindowsUnitTestsPlugin)
    (call : MethodCall) :
    (HandleMethodCall plugin call).filter ResultCall.isError = [] := by
  unfold HandleMethodCall
  split <;> rfl

/-- C10: every success response carries exactly the boolean `true`: no other
value is ever delivered through the success terminal. -/
theorem success_payload_is_true (plugin : WindowsUnitTestsPlugin)
    (call : MethodCall) (v : EncodableValue)
    (h : ResultCall.success v ∈ HandleMethodCall plugin call) :
    v = EncodableValue.bool true := by
  unfold HandleMethodCall at h
  split at h <;> simp_all

/-- C10 witness: the success response to "placeholder" carries `true`. -/
theorem success_payload_witness : EncodableValue.bool true = EncodableValue.bool true :=
  success_payload_is_true WindowsUnitTestsPlugin.mk
    { method_name := "placeholder", arguments := EncodableValue.null }
    (EncodableValue.bool true) (by simp [HandleMethodCall])

end WindowsUnitTests
